import Mathlib

/-!
Verification of the Attendance-monitoring repository against its
natural-language specification.

The repository records face-recognition attendance events on an
append-only ledger (an Ethereum smart contract) and later reads them
back filtered by a time range.  The definitions below are a shallow
embedding of the relevant Python code:

* timestamp parsing (datetime.strptime with the two fixed formats used
  by the app, plus the regex fallback of Get_Attendance_By_Time.py),
* collect_records of Get_Attendance_By_Time.py (ledger scan + range
  filter),
* the time-window resolution and pre-connection validation of main()
  in Get_Attendance_By_Time.py,
* the block-time reconciliation loop of main() (--use-block-times),
* the capture-session deduplication loop of face_attendance.py and
  app.py,
* the SHA-256 content hash computed by save_to_blockchain in
  face_attendance.py and app.py.

Machine-external behaviours (the web3 RPC transport, the ABI decoder,
the camera, the face model) enter as explicit parameters: a ledger is a
total count plus a fetch function returning Except, a chain is a
function from block number to block, the local-time conversion
datetime.fromtimestamp is an abstract parameter.  Digits are modelled
as ASCII digits (the Python regexes would additionally accept other
Unicode decimal digits; none of the properties below depend on that).
-/

/-- Model of a naive Python datetime with microsecond 0, as produced by
datetime.strptime on the second-resolution formats used by the app. -/
structure PyDateTime where
  year : Nat
  month : Nat
  day : Nat
  hour : Nat
  minute : Nat
  second : Nat
deriving DecidableEq, Repr

/-- Python datetime order is lexicographic on the components. -/
def PyDateTime.le (a b : PyDateTime) : Bool :=
  if a.year ≠ b.year then decide (a.year < b.year)
  else if a.month ≠ b.month then decide (a.month < b.month)
  else if a.day ≠ b.day then decide (a.day < b.day)
  else if a.hour ≠ b.hour then decide (a.hour < b.hour)
  else if a.minute ≠ b.minute then decide (a.minute < b.minute)
  else decide (a.second ≤ b.second)

/-- Strict lexicographic order on datetimes. -/
def PyDateTime.lt (a b : PyDateTime) : Bool :=
  if a.year ≠ b.year then decide (a.year < b.year)
  else if a.month ≠ b.month then decide (a.month < b.month)
  else if a.day ≠ b.day then decide (a.day < b.day)
  else if a.hour ≠ b.hour then decide (a.hour < b.hour)
  else if a.minute ≠ b.minute then decide (a.minute < b.minute)
  else decide (a.second < b.second)

/-- Numeric value of an ASCII digit character. -/
def digitVal (c : Char) : Nat := c.toNat - 48

/-- Matcher for the strptime directive %Y: exactly four digits
(regex \d\d\d\d in CPython _strptime). -/
def matchY : List Char → Option (Nat × List Char)
  | c1 :: c2 :: c3 :: c4 :: rest =>
    if c1.isDigit && c2.isDigit && c3.isDigit && c4.isDigit then
      some (digitVal c1 * 1000 + digitVal c2 * 100 + digitVal c3 * 10 + digitVal c4, rest)
    else none
  | _ => none

/-- Matcher for %m: regex alternatives tried in order (two-digit 10-12,
two-digit 01-09, then a single digit 1-9). -/
def matchm : List Char → Option (Nat × List Char)
  | c1 :: c2 :: rest =>
    if c1 == '1' && c2.isDigit && digitVal c2 ≤ 2 then some (10 + digitVal c2, rest)
    else if c1 == '0' && c2.isDigit && 1 ≤ digitVal c2 then some (digitVal c2, rest)
    else if c1.isDigit && 1 ≤ digitVal c1 then some (digitVal c1, c2 :: rest)
    else none
  | [c1] => if c1.isDigit && 1 ≤ digitVal c1 then some (digitVal c1, []) else none
  | [] => none

/-- Matcher for %d: alternatives 30-31, 10-29, 01-09, then one digit 1-9. -/
def matchd : List Char → Option (Nat × List Char)
  | c1 :: c2 :: rest =>
    if c1 == '3' && c2.isDigit && digitVal c2 ≤ 1 then some (30 + digitVal c2, rest)
    else if (c1 == '1' || c1 == '2') && c2.isDigit then
      some (digitVal c1 * 10 + digitVal c2, rest)
    else if c1 == '0' && c2.isDigit && 1 ≤ digitVal c2 then some (digitVal c2, rest)
    else if c1.isDigit && 1 ≤ digitVal c1 then some (digitVal c1, c2 :: rest)
    else none
  | [c1] => if c1.isDigit && 1 ≤ digitVal c1 then some (digitVal c1, []) else none
  | [] => none

/-- Matcher for %H: alternatives 20-23, 00-19, then one digit. -/
def matchH : List Char → Option (Nat × List Char)
  | c1 :: c2 :: rest =>
    if c1 == '2' && c2.isDigit && digitVal c2 ≤ 3 then some (20 + digitVal c2, rest)
    else if (c1 == '0' || c1 == '1') && c2.isDigit then
      some (digitVal c1 * 10 + digitVal c2, rest)
    else if c1.isDigit then some (digitVal c1, c2 :: rest)
    else none
  | [c1] => if c1.isDigit then some (digitVal c1, []) else none
  | [] => none

/-- Matcher for %M: alternative 00-59 (two digits), then one digit. -/
def matchM : List Char → Option (Nat × List Char)
  | c1 :: c2 :: rest =>
    if c1.isDigit && digitVal c1 ≤ 5 && c2.isDigit then
      some (digitVal c1 * 10 + digitVal c2, rest)
    else if c1.isDigit then some (digitVal c1, c2 :: rest)
    else none
  | [c1] => if c1.isDigit then some (digitVal c1, []) else none
  | [] => none

/-- Matcher for %S: alternatives 60-61 (leap seconds), 00-59, one digit. -/
def matchS : List Char → Option (Nat × List Char)
  | c1 :: c2 :: rest =>
    if c1 == '6' && c2.isDigit && digitVal c2 ≤ 1 then some (60 + digitVal c2, rest)
    else if c1.isDigit && digitVal c1 ≤ 5 && c2.isDigit then
      some (digitVal c1 * 10 + digitVal c2, rest)
    else if c1.isDigit then some (digitVal c1, c2 :: rest)
    else none
  | [c1] => if c1.isDigit then some (digitVal c1, []) else none
  | [] => none

/-- Matcher for a literal character of the format string. -/
def matchLit (c : Char) : List Char → Option (List Char)
  | c1 :: rest => if c1 == c then some rest else none
  | [] => none

/-- Python whitespace characters recognised by the regex class \s. -/
def isPySpace (c : Char) : Bool :=
  c == ' ' || c == '\t' || c == '\n' || c == '\r' || c == '\x0b' || c == '\x0c'

/-- Whitespace in a strptime format is compiled to one-or-more
whitespace characters. -/
def matchWs : List Char → Option (List Char)
  | c1 :: rest => if isPySpace c1 then some (rest.dropWhile isPySpace) else none
  | [] => none

/-- Leap-year rule used by the Python datetime module. -/
def isLeapYear (y : Nat) : Bool :=
  (y % 4 == 0 && y % 100 != 0) || y % 400 == 0

/-- Number of days of a month, as validated by the datetime constructor. -/
def daysInMonth (y m : Nat) : Nat :=
  if m == 2 then (if isLeapYear y then 29 else 28)
  else if m == 4 || m == 6 || m == 9 || m == 11 then 30
  else 31

/-- Validation performed by the datetime constructor: MINYEAR 1,
MAXYEAR 9999, a valid calendar day, hour below 24, minute and second
below 60 (so the leap seconds admitted by the %S regex are rejected
here with a ValueError). -/
def mkDateTime (y mo d h mi s : Nat) : Option PyDateTime :=
  if 1 ≤ y ∧ y ≤ 9999 ∧ 1 ≤ mo ∧ mo ≤ 12 ∧ 1 ≤ d ∧ d ≤ daysInMonth y mo
      ∧ h ≤ 23 ∧ mi ≤ 59 ∧ s ≤ 59 then
    some ⟨y, mo, d, h, mi, s⟩
  else none

/-- datetime.strptime(txt, DATETIME_FORMAT) where DATETIME_FORMAT is
the repository constant "%Y-%m-%d %H:%M:%S"; None models the
ValueError raised on a failed match, on unconverted trailing data, or
by the datetime constructor. -/
def strptimeFull (txt : String) : Option PyDateTime := do
  let (y, r1) ← matchY txt.data
  let r2 ← matchLit '-' r1
  let (mo, r3) ← matchm r2
  let r4 ← matchLit '-' r3
  let (d, r5) ← matchd r4
  let r6 ← matchWs r5
  let (h, r7) ← matchH r6
  let r8 ← matchLit ':' r7
  let (mi, r9) ← matchM r8
  let r10 ← matchLit ':' r9
  let (s, r11) ← matchS r10
  if r11 = [] then mkDateTime y mo d h mi s else none

/-- datetime.strptime(txt, "%Y-%m-%d"): a date-only parse, producing
midnight of that day. -/
def strptimeDate (txt : String) : Option PyDateTime := do
  let (y, r1) ← matchY txt.data
  let r2 ← matchLit '-' r1
  let (mo, r3) ← matchm r2
  let r4 ← matchLit '-' r3
  let (d, r5) ← matchd r4
  if r5 = [] then mkDateTime y mo d 0 0 0 else none

/-- Match of the fallback regex pattern (four digits, dash, two digits,
dash, two digits, space, two digits, colon, two digits, colon, two
digits) anchored at the head of the list; returns the 19 matched
characters. -/
def matchTsPatternAt (l : List Char) : Option (List Char) :=
  match l with
  | a :: b :: c :: d :: e :: f :: g :: h :: i :: j :: k :: m :: n :: o :: p :: q :: r :: s :: t :: _ =>
    if a.isDigit && b.isDigit && c.isDigit && d.isDigit && e == '-'
        && f.isDigit && g.isDigit && h == '-' && i.isDigit && j.isDigit
        && k == ' ' && m.isDigit && n.isDigit && o == ':' && p.isDigit && q.isDigit
        && r == ':' && s.isDigit && t.isDigit then
      some [a, b, c, d, e, f, g, h, i, j, k, m, n, o, p, q, r, s, t]
    else none
  | _ => none

/-- re.search of the fallback pattern: the match at the leftmost
position where the pattern matches. -/
def searchTs : List Char → Option (List Char)
  | [] => none
  | c :: rest =>
    match matchTsPatternAt (c :: rest) with
    | some mtc => some mtc
    | none => searchTs rest

/-- Timestamp resolution of collect_records (Get_Attendance_By_Time.py
lines 75-85): try the full-format strptime; on failure search for the
first substring matching the fixed pattern and strptime that; on any
failure the resolved time is None. -/
def resolveTimestamp (timestamp_str : String) : Option PyDateTime :=
  match strptimeFull timestamp_str with
  | some d => some d
  | none =>
    match searchTs timestamp_str.data with
    | some mtc => strptimeFull (String.mk mtc)
    | none => none

/-- parse_time of Get_Attendance_By_Time.py: accept a full date-time or
a date-only value; None models the ValueError propagated when both
formats fail. -/
def parse_time (txt : String) : Option PyDateTime :=
  match strptimeFull txt with
  | some d => some d
  | none => strptimeDate txt

example : strptimeFull "2025-12-01 20:19:00" = some ⟨2025, 12, 1, 20, 19, 0⟩ := by decide
example : strptimeFull "2025-12-01" = none := by decide
example : strptimeDate "2025-12-01" = some ⟨2025, 12, 1, 0, 0, 0⟩ := by decide
example : resolveTimestamp "noise 2025-12-01 20:19:00 noise" = some ⟨2025, 12, 1, 20, 19, 0⟩ := by
  decide
example : resolveTimestamp "garbage" = none := by decide
example : strptimeFull "2025-02-30 10:00:00" = none := by decide
example : strptimeFull "2025-1-1 0:0:0" = some ⟨2025, 1, 1, 0, 0, 0⟩ := by decide
example : strptimeFull "0000-01-01 00:00:00" = none := by decide
example : strptimeFull "2025-12-01 20:19:61" = none := by decide

/-!
collect_records of Get_Attendance_By_Time.py.  The ledger is modelled
by a record count and a fetch function: fetch i is the outcome of
contract.functions.getRecord(i).call(), an exception message or the raw
returned tuple (a list of strings, whose unpacking into three fields
can fail on an unexpected shape).
-/

/-- A record accepted into the in-range result list of collect_records
(the dict appended on line 105 of Get_Attendance_By_Time.py). -/
structure ValidRecord where
  index : Nat
  name : String
  timestamp : String
  hash : String
deriving DecidableEq, Repr

/-- An entry of the invalid_records list of collect_records: either a
record of unexpected shape (line 72, fields None plus the raw value) or
a record whose timestamp could not be resolved (line 96). -/
inductive InvalidEntry where
  | badShape (index : Nat) (raw : List String)
  | badTime (index : Nat) (name timestamp hash : String)
deriving DecidableEq, Repr

/-- Index field of an invalid entry. -/
def InvalidEntry.index : InvalidEntry → Nat
  | .badShape i _ => i
  | .badTime i _ _ _ => i

/-- First-match association lookup, modelling a Python dict lookup for
the maps built by the block-time scan. -/
def lookupNat (m : List (Nat × PyDateTime)) (i : Nat) : Option PyDateTime :=
  match m with
  | [] => none
  | (k, v) :: rest => if k = i then some v else lookupNat rest i

/-- Resolved time of record i (lines 75-89): the strptime/regex parse
of the timestamp string, overridden by the block-time map entry for i
when the map is non-empty (a None or empty map is falsy in Python) and
contains i. -/
def resolved_dt (block_time_map : List (Nat × PyDateTime)) (i : Nat)
    (timestamp_str : String) : Option PyDateTime :=
  let rec_dt := resolveTimestamp timestamp_str
  if block_time_map ≠ [] then
    match lookupNat block_time_map i with
    | some t => some t
    | none => rec_dt
  else rec_dt

/-- The body of the for-loop of collect_records for one index i,
returning the element each iteration appends to the records list and
to the invalid_records list (at most one of the two). -/
def processRecord (fetch : Nat → Except String (List String))
    (start_dt end_dt : PyDateTime) (include_invalid : Bool)
    (block_time_map : List (Nat × PyDateTime)) (i : Nat) :
    Option ValidRecord × Option InvalidEntry :=
  match fetch i with
  | .error _ => (none, none)
  | .ok raw =>
    match raw with
    | [name, timestamp_str, hash_value] =>
      match resolved_dt block_time_map i timestamp_str with
      | none =>
        (none, if include_invalid then
          some (.badTime i name timestamp_str hash_value) else none)
      | some rec_dt =>
        if start_dt.le rec_dt && rec_dt.le end_dt then
          (some ⟨i, name, timestamp_str, hash_value⟩, none)
        else (none, none)
    | _ => (none, if include_invalid then some (.badShape i raw) else none)

/-- collect_records: iterate i over range(total), appending into the
two result lists; a fetch exception prints a warning and continues,
leaving no trace in either returned list. -/
def collect_records (total : Nat) (fetch : Nat → Except String (List String))
    (start_dt end_dt : PyDateTime) (include_invalid : Bool)
    (block_time_map : List (Nat × PyDateTime)) :
    List ValidRecord × List InvalidEntry :=
  ((List.range total).filterMap
      (fun i => (processRecord fetch start_dt end_dt include_invalid block_time_map i).1),
    (List.range total).filterMap
      (fun i => (processRecord fetch start_dt end_dt include_invalid block_time_map i).2))

/-- The record appended for index i carries index i. -/
theorem processRecord_fst_index {fetch : Nat → Except String (List String)}
    {start_dt end_dt : PyDateTime} {include_invalid : Bool}
    {block_time_map : List (Nat × PyDateTime)} {i : Nat} {r : ValidRecord}
    (h : (processRecord fetch start_dt end_dt include_invalid block_time_map i).1 = some r) :
    r.index = i := by
  unfold processRecord at h
  split at h
  · simp at h
  · rename_i raw heq
    split at h
    · split at h
      · simp at h
      · split at h
        · simp at h
          subst h
          rfl
        · simp at h
    · simp at h

/-- The invalid entry appended for index i carries index i. -/
theorem processRecord_snd_index {fetch : Nat → Except String (List String)}
    {start_dt end_dt : PyDateTime} {include_invalid : Bool}
    {block_time_map : List (Nat × PyDateTime)} {i : Nat} {v : InvalidEntry}
    (h : (processRecord fetch start_dt end_dt include_invalid block_time_map i).2 = some v) :
    v.index = i := by
  unfold processRecord at h
  split at h
  · simp at h
  · rename_i raw heq
    split at h
    · split at h
      · split at h
        · simp at h
          subst h
          rfl
        · simp at h
      · split at h
        · simp at h
        · simp at h
    · split at h
      · simp at h
        subst h
        rfl
      · simp at h

/-- Membership in the first component of collect_records. -/
theorem mem_collect_records_fst {total : Nat} {fetch : Nat → Except String (List String)}
    {start_dt end_dt : PyDateTime} {include_invalid : Bool}
    {block_time_map : List (Nat × PyDateTime)} {r : ValidRecord} :
    r ∈ (collect_records total fetch start_dt end_dt include_invalid block_time_map).1 ↔
      r.index < total ∧
        (processRecord fetch start_dt end_dt include_invalid block_time_map r.index).1 = some r := by
  unfold collect_records
  simp only [List.mem_filterMap, List.mem_range]
  constructor
  · rintro ⟨i, hi, hp⟩
    have := processRecord_fst_index hp
    subst this
    exact ⟨hi, hp⟩
  · rintro ⟨hi, hp⟩
    exact ⟨r.index, hi, hp⟩

/-- Membership in the second component of collect_records. -/
theorem mem_collect_records_snd {total : Nat} {fetch : Nat → Except String (List String)}
    {start_dt end_dt : PyDateTime} {include_invalid : Bool}
    {block_time_map : List (Nat × PyDateTime)} {v : InvalidEntry} :
    v ∈ (collect_records total fetch start_dt end_dt include_invalid block_time_map).2 ↔
      v.index < total ∧
        (processRecord fetch start_dt end_dt include_invalid block_time_map v.index).2 = some v := by
  unfold collect_records
  simp only [List.mem_filterMap, List.mem_range]
  constructor
  · rintro ⟨i, hi, hp⟩
    have := processRecord_snd_index hp
    subst this
    exact ⟨hi, hp⟩
  · rintro ⟨hi, hp⟩
    exact ⟨v.index, hi, hp⟩

/-- The in-range result list is in strictly ascending index order. -/
theorem collect_records_fst_sorted (total : Nat) (fetch : Nat → Except String (List String))
    (start_dt end_dt : PyDateTime) (include_invalid : Bool)
    (block_time_map : List (Nat × PyDateTime)) :
    ((collect_records total fetch start_dt end_dt include_invalid block_time_map).1).Pairwise
      (fun a b => a.index < b.index) := by
  unfold collect_records
  refine List.Pairwise.filterMap _ ?_ (List.pairwise_lt_range total)
  intro a a' hlt b hb b' hb'
  simp only [Option.mem_def] at hb hb'
  rw [processRecord_fst_index hb, processRecord_fst_index hb']
  exact hlt

/-!
Time-window resolution and pre-connection validation of main() in
Get_Attendance_By_Time.py (lines 149-176).
-/

/-- The three time-range command-line parameters of
Get_Attendance_By_Time.py; args.end is named endArg because end is a
Lean keyword. -/
structure QueryArgs where
  date : Option String
  start : Option String
  endArg : Option String
deriving DecidableEq, Repr

/-- Outcome of resolving the window: either an abort before any ledger
interaction (parser.error or a propagated ValueError) or the resolved
inclusive bounds. -/
inductive WindowResult where
  | error (msg : String)
  | ok (start_dt end_dt : PyDateTime)
deriving DecidableEq, Repr

/-- Bounds resolution of main(): the --date branch expands the day to
00:00:00 and 23:59:59; otherwise --start is required and parsed with
parse_time, and --end defaults to datetime.now(). -/
def windowBounds (args : QueryArgs) (now : PyDateTime) :
    Except String (PyDateTime × PyDateTime) :=
  match args.date with
  | some d =>
    if args.start.isSome || args.endArg.isSome then
      .error "--date cannot be used with --start or --end; pick one approach"
    else
      match strptimeDate d with
      | none => .error "Invalid --date format: use YYYY-MM-DD."
      | some day_dt =>
        .ok (⟨day_dt.year, day_dt.month, day_dt.day, 0, 0, 0⟩,
          ⟨day_dt.year, day_dt.month, day_dt.day, 23, 59, 59⟩)
  | none =>
    match args.start with
    | none => .error "--start is required unless --date is provided"
    | some s =>
      match parse_time s with
      | none => .error "ValueError: unparseable --start"
      | some start_dt =>
        match args.endArg with
        | none => .ok (start_dt, now)
        | some e =>
          match parse_time e with
          | none => .error "ValueError: unparseable --end"
          | some end_dt => .ok (start_dt, end_dt)

/-- Window resolution including the inversion check of line 169, which
runs after either branch and before any web3 connection. -/
def resolveWindow (args : QueryArgs) (now : PyDateTime) : WindowResult :=
  match windowBounds args now with
  | .error m => .error m
  | .ok (start_dt, end_dt) =>
    if end_dt.lt start_dt then .error "--end cannot be earlier than --start"
    else .ok start_dt end_dt

/-- Externally visible steps of main() in program order: an argument
error aborts the process, otherwise the web3 connection is opened and
the ledger is read. -/
inductive MainAction where
  | argError (msg : String)
  | connect (rpc : String)
  | readTotal
  | fetchRecord (i : Nat)
deriving DecidableEq, Repr

/-- Trace of main() up to and including the per-index ledger reads of
collect_records: the window is resolved and validated first; only on
success does the program connect to the RPC endpoint, read
totalRecords and fetch each index. -/
def mainTrace (args : QueryArgs) (now : PyDateTime) (rpc : String) (total : Nat) :
    List MainAction :=
  match resolveWindow args now with
  | .error m => [.argError m]
  | .ok _ _ =>
    .connect rpc :: .readTotal :: (List.range total).map .fetchRecord

example : resolveWindow ⟨none, some "2025-12-01", some "2025-12-02"⟩ ⟨2026, 1, 1, 0, 0, 0⟩ =
    .ok ⟨2025, 12, 1, 0, 0, 0⟩ ⟨2025, 12, 2, 0, 0, 0⟩ := by decide
example : resolveWindow ⟨some "2025-12-01", none, none⟩ ⟨2026, 1, 1, 0, 0, 0⟩ =
    .ok ⟨2025, 12, 1, 0, 0, 0⟩ ⟨2025, 12, 1, 23, 59, 59⟩ := by decide
example : resolveWindow ⟨none, some "2025-12-02", some "2025-12-01"⟩ ⟨2026, 1, 1, 0, 0, 0⟩ =
    .error "--end cannot be earlier than --start" := by decide

/-!
The block-time reconciliation loop of main() (lines 213-243, run under
--use-block-times).  A transaction carries its to-address (None for a
contract creation) and the result of decode_function_input on its
input data (None models a decode failure, otherwise the decoded
function name).  datetime.fromtimestamp is an abstract parameter since
it depends on the local timezone.
-/

/-- A transaction as inspected by the scan loop. -/
structure BlockTx where
  toAddr : Option String
  fnName : Option String
deriving DecidableEq, Repr

/-- A block: its confirmation timestamp and its transactions in
block-local order. -/
structure Block where
  timestamp : Nat
  transactions : List BlockTx
deriving DecidableEq, Repr

/-- The filter of the scan loop: the transaction must have a to-address
equal to the contract address, its input must decode, and the decoded
function must be logAttendance. -/
def txKeep (contractAddr : String) (tx : BlockTx) : Bool :=
  match tx.toAddr with
  | none => false
  | some a => a == contractAddr && tx.fnName == some "logAttendance"

/-- Inner loop over the transactions of one block: each surviving
transaction writes current_index to the block time and increments the
counter. -/
def scanTxs (contractAddr : String) (btime : PyDateTime) :
    List BlockTx → List (Nat × PyDateTime) × Nat → List (Nat × PyDateTime) × Nat
  | [], st => st
  | tx :: rest, (acc, idx) =>
    if txKeep contractAddr tx then
      scanTxs contractAddr btime rest (acc ++ [(idx, btime)], idx + 1)
    else
      scanTxs contractAddr btime rest (acc, idx)

/-- The block-time map built by main(): blocks from_block..to_block are
scanned in ascending order, transactions within a block in block-local
order; the map is the dict block_time_map in insertion order. -/
def buildBlockTimeMap (getBlock : Nat → Block) (contractAddr : String)
    (fromtimestamp : Nat → PyDateTime) (from_block to_block : Nat) :
    List (Nat × PyDateTime) :=
  ((List.range' from_block (to_block + 1 - from_block)).foldl
    (fun st b =>
      scanTxs contractAddr (fromtimestamp (getBlock b).timestamp) (getBlock b).transactions st)
    ([], 0)).1

/-- Specification-side ordering: the confirmation times of the
surviving transactions, listed in ascending block order and block-local
transaction order. -/
def survivingTimes (getBlock : Nat → Block) (contractAddr : String)
    (fromtimestamp : Nat → PyDateTime) (from_block to_block : Nat) : List PyDateTime :=
  (List.range' from_block (to_block + 1 - from_block)).flatMap
    (fun b => ((getBlock b).transactions.filter (txKeep contractAddr)).map
      (fun _ => fromtimestamp (getBlock b).timestamp))

/-- The inner scan appends exactly the enumeration, from the running
counter, of the surviving transactions of the block. -/
theorem scanTxs_eq (contractAddr : String) (btime : PyDateTime) (txs : List BlockTx) :
    ∀ acc idx, scanTxs contractAddr btime txs (acc, idx) =
      (acc ++ List.enumFrom idx ((txs.filter (txKeep contractAddr)).map (fun _ => btime)),
        idx + (txs.filter (txKeep contractAddr)).length) := by
  induction txs with
  | nil => intro acc idx; simp [scanTxs]
  | cons tx rest ih =>
    intro acc idx
    by_cases h : txKeep contractAddr tx
    · simp [scanTxs, h, ih, List.filter_cons, List.enumFrom_cons, Nat.add_comm,
        Nat.add_assoc, Nat.add_left_comm]
    · simp [scanTxs, h, ih, List.filter_cons]

/-- The block fold appends the enumeration of the concatenated
surviving-transaction times. -/
theorem buildBlockTimeMap_go (getBlock : Nat → Block) (contractAddr : String)
    (fromtimestamp : Nat → PyDateTime) (bs : List Nat) :
    ∀ acc idx,
      bs.foldl
        (fun st b =>
          scanTxs contractAddr (fromtimestamp (getBlock b).timestamp)
            (getBlock b).transactions st)
        (acc, idx) =
      (acc ++ List.enumFrom idx
          (bs.flatMap (fun b => ((getBlock b).transactions.filter (txKeep contractAddr)).map
            (fun _ => fromtimestamp (getBlock b).timestamp))),
        idx + (bs.flatMap (fun b => ((getBlock b).transactions.filter (txKeep contractAddr)).map
            (fun _ => fromtimestamp (getBlock b).timestamp))).length) := by
  induction bs with
  | nil => intro acc idx; simp
  | cons b rest ih =>
    intro acc idx
    simp only [List.foldl_cons, List.flatMap_cons]
    rw [scanTxs_eq, ih, List.enumFrom_append, List.append_assoc]
    simp [Nat.add_assoc, Nat.add_comm, Nat.add_left_comm]


/-!
The capture-session deduplication loop of face_attendance.py
(capture_and_log, lines 139-175).  A detection event is the result of
match_face for one face of one frame (None for an unknown face)
together with the success flag that save_to_blockchain would return
for a write attempted at that moment (the flag is ignored when no
attempt is made).
-/

namespace FaceAttendance

/-- State of one capture session: the logged_today set and the list of
save_to_blockchain calls made so far, each with the success flag the
call returned. -/
structure SessionState where
  logged_today : List String
  attempts : List (String × Bool)
deriving DecidableEq, Repr

/-- One recognised-face iteration of the loop body: a name already in
logged_today changes nothing; otherwise save_to_blockchain is called
once (in dry mode it returns False without submitting) and the name is
added to logged_today on both the success and the failure branch
(lines 167-171). -/
def processDetection (send_to_chain : Bool) (st : SessionState)
    (d : Option String × Bool) : SessionState :=
  match d.1 with
  | none => st
  | some name =>
    if name ∈ st.logged_today then st
    else if send_to_chain then
      ⟨name :: st.logged_today, st.attempts ++ [(name, d.2)]⟩
    else
      ⟨name :: st.logged_today, st.attempts ++ [(name, false)]⟩

/-- A whole capture session: logged_today starts empty and the
detection stream is processed in order. -/
def capture_and_log (send_to_chain : Bool) (detections : List (Option String × Bool)) :
    SessionState :=
  detections.foldl (processDetection send_to_chain) ⟨[], []⟩

/-- Number of save_to_blockchain calls made for one name. -/
def countAttempts (name : String) (st : SessionState) : Nat :=
  (st.attempts.filter (fun a => a.1 == name)).length

/-- Session invariant: every name with a recorded attempt is in
logged_today, and no name has more than one attempt. -/
def SessionInv (st : SessionState) : Prop :=
  ∀ name : String, (name ∈ st.attempts.map Prod.fst → name ∈ st.logged_today) ∧
    countAttempts name st ≤ 1

theorem processDetection_inv (send_to_chain : Bool) (st : SessionState)
    (d : Option String × Bool) (h : SessionInv st) :
    SessionInv (processDetection send_to_chain st d) := by
  rcases d with ⟨od, succ⟩
  match od with
  | none => exact h
  | some n =>
    by_cases hmem : n ∈ st.logged_today
    · simpa [processDetection, hmem] using h
    · have hn : n ∉ st.attempts.map Prod.fst := fun hc => hmem ((h n).1 hc)
      have hcount : (st.attempts.filter (fun a => a.1 == n)).length = 0 := by
        rw [List.length_eq_zero, List.filter_eq_nil_iff]
        intro a ha
        simp only [beq_iff_eq]
        intro hfst
        exact hn (List.mem_map.2 ⟨a, ha, hfst⟩)
      have key : ∀ x : Bool, SessionInv ⟨n :: st.logged_today, st.attempts ++ [(n, x)]⟩ := by
        intro x name
        constructor
        · intro hin
          rw [List.map_append] at hin
          rcases List.mem_append.1 hin with h1 | h2
          · exact List.mem_cons_of_mem _ ((h name).1 h1)
          · simp only [List.map_cons, List.map_nil, List.mem_singleton] at h2
            subst h2
            exact List.mem_cons_self _ _
        · show (((st.attempts ++ [(n, x)]).filter (fun a => a.1 == name)).length ≤ 1)
          rw [List.filter_append, List.length_append]
          by_cases hname : name = n
          · subst hname
            simp [List.filter_cons, hcount]
          · have hbne : (n == name) = false := by
              simp only [beq_eq_false_iff_ne, ne_eq]
              exact fun hh => hname hh.symm
            simp only [List.filter_cons, List.filter_nil, hbne, Bool.false_eq_true,
              if_false, List.length_nil, Nat.add_zero]
            exact (h name).2
      cases send_to_chain with
      | false => simpa [processDetection, hmem] using key false
      | true => simpa [processDetection, hmem] using key succ

theorem capture_and_log_inv (send_to_chain : Bool)
    (detections : List (Option String × Bool)) :
    SessionInv (capture_and_log send_to_chain detections) := by
  unfold capture_and_log
  have base : SessionInv ⟨[], []⟩ := by
    intro name
    refine ⟨fun h => ?_, ?_⟩
    · simp at h
    · simp [countAttempts]
  generalize hst : (⟨[], []⟩ : SessionState) = st at base
  clear hst
  induction detections generalizing st with
  | nil => simpa using base
  | cons d rest ih =>
    simp only [List.foldl_cons]
    exact ih _ (processDetection_inv send_to_chain st d base)

end FaceAttendance

/-!
The per-frame logging of app.py (lines 169-179): a recognised name not
yet in st.session_state.logged_users appends one dashboard entry
(name, timestamp, content hash, no transaction yet) and adds the name
to logged_users; Start Webcam resets both to empty.
-/

namespace AppStreamlit

/-- A session_entries element as built on line 177 of app.py (the tx
field is None at creation and omitted here). -/
structure Entry where
  name : String
  timestamp : String
  hash : String
deriving DecidableEq, Repr

/-- The session state kept in st.session_state. -/
structure AppState where
  logged_users : List String
  session_entries : List Entry
deriving DecidableEq, Repr

/-- One recognised-face iteration of the webcam loop.  The detection
carries the name from match_face, the formatted timestamp and the
content hash computed for the entry. -/
def processFrameFace (st : AppState) (d : Option String × String × String) : AppState :=
  match d.1 with
  | none => st
  | some name =>
    if name ∈ st.logged_users then st
    else ⟨name :: st.logged_users, st.session_entries ++ [⟨name, d.2.1, d.2.2⟩]⟩

/-- A webcam session starting from the Start Webcam reset. -/
def runWebcamSession (detections : List (Option String × String × String)) : AppState :=
  detections.foldl processFrameFace ⟨[], []⟩

/-- Number of dashboard entries recorded for one name. -/
def countEntries (name : String) (st : AppState) : Nat :=
  (st.session_entries.filter (fun e => e.name == name)).length

/-- Session invariant of the app loop. -/
def AppInv (st : AppState) : Prop :=
  ∀ name : String, (name ∈ st.session_entries.map Entry.name → name ∈ st.logged_users) ∧
    countEntries name st ≤ 1

theorem processFrameFace_inv (st : AppState) (d : Option String × String × String)
    (h : AppInv st) : AppInv (processFrameFace st d) := by
  rcases d with ⟨od, ts, hs⟩
  match od with
  | none => exact h
  | some n =>
    by_cases hmem : n ∈ st.logged_users
    · simpa [processFrameFace, hmem] using h
    · have hn : n ∉ st.session_entries.map Entry.name := fun hc => hmem ((h n).1 hc)
      have hcount : (st.session_entries.filter (fun e => e.name == n)).length = 0 := by
        rw [List.length_eq_zero, List.filter_eq_nil_iff]
        intro e he
        simp only [beq_iff_eq]
        intro hfst
        exact hn (List.mem_map.2 ⟨e, he, hfst⟩)
      have key : AppInv ⟨n :: st.logged_users, st.session_entries ++ [⟨n, ts, hs⟩]⟩ := by
        intro name
        constructor
        · intro hin
          rw [List.map_append] at hin
          rcases List.mem_append.1 hin with h1 | h2
          · exact List.mem_cons_of_mem _ ((h name).1 h1)
          · simp only [List.map_cons, List.map_nil, List.mem_singleton] at h2
            subst h2
            exact List.mem_cons_self _ _
        · show (((st.session_entries ++ [(⟨n, ts, hs⟩ : Entry)]).filter
            (fun e => e.name == name)).length ≤ 1)
          rw [List.filter_append, List.length_append]
          by_cases hname : name = n
          · subst hname
            simp [List.filter_cons, hcount]
          · have hbne : (n == name) = false := by
              simp only [beq_eq_false_iff_ne, ne_eq]
              exact fun hh => hname hh.symm
            simp only [List.filter_cons, List.filter_nil, hbne, Bool.false_eq_true,
              if_false, List.length_nil, Nat.add_zero]
            exact (h name).2
      simpa [processFrameFace, hmem] using key

theorem runWebcamSession_inv (detections : List (Option String × String × String)) :
    AppInv (runWebcamSession detections) := by
  unfold runWebcamSession
  have base : AppInv ⟨[], []⟩ := by
    intro name
    refine ⟨fun h => ?_, ?_⟩
    · simp at h
    · simp [countEntries]
  generalize hst : (⟨[], []⟩ : AppState) = st at base
  clear hst
  induction detections generalizing st with
  | nil => simpa using base
  | cons d rest ih =>
    simp only [List.foldl_cons]
    exact ih _ (processFrameFace_inv st d base)

end AppStreamlit

/-!
SHA-256, as invoked by hashlib.sha256(...).hexdigest() in
save_to_blockchain of face_attendance.py (line 100) and app.py (line
82) and in the app.py webcam loop (line 176).  Words are natural
numbers reduced modulo two to the thirty-second power.
-/

/-- Truncation to a 32-bit word. -/
def w32 (n : Nat) : Nat := n % 4294967296

/-- Rotation of a 32-bit word towards the low bits. -/
def rotr32 (k x : Nat) : Nat := w32 ((x >>> k) ||| (x <<< (32 - k)))

/-- The upper-case Sigma-0 function of the compression loop. -/
def bigSigma0 (x : Nat) : Nat := rotr32 2 x ^^^ rotr32 13 x ^^^ rotr32 22 x

/-- The upper-case Sigma-1 function of the compression loop. -/
def bigSigma1 (x : Nat) : Nat := rotr32 6 x ^^^ rotr32 11 x ^^^ rotr32 25 x

/-- The lower-case sigma-0 function of the message schedule. -/
def smallSigma0 (x : Nat) : Nat := rotr32 7 x ^^^ rotr32 18 x ^^^ (x >>> 3)

/-- The lower-case sigma-1 function of the message schedule. -/
def smallSigma1 (x : Nat) : Nat := rotr32 17 x ^^^ rotr32 19 x ^^^ (x >>> 10)

/-- The choose function. -/
def chFun (x y z : Nat) : Nat := (x &&& y) ^^^ ((x ^^^ 4294967295) &&& z)

/-- The majority function. -/
def majFun (x y z : Nat) : Nat := (x &&& y) ^^^ (x &&& z) ^^^ (y &&& z)

/-- The 64 round constants of SHA-256. -/
def sha256K : List Nat :=
  [1116352408, 1899447441, 3049323471, 3921009573, 961987163,
   1508970993, 2453635748, 2870763221, 3624381080, 310598401,
   607225278, 1426881987, 1925078388, 2162078206, 2614888103,
   3248222580, 3835390401, 4022224774, 264347078, 604807628,
   770255983, 1249150122, 1555081692, 1996064986, 2554220882,
   2821834349, 2952996808, 3210313671, 3336571891, 3584528711,
   113926993, 338241895, 666307205, 773529912, 1294757372,
   1396182291, 1695183700, 1986661051, 2177026350, 2456956037,
   2730485921, 2820302411, 3259730800, 3345764771, 3516065817,
   3600352804, 4094571909, 275423344, 430227734, 506948616,
   659060556, 883997877, 958139571, 1322822218, 1537002063,
   1747873779, 1955562222, 2024104815, 2227730452, 2361852424,
   2428436474, 2756734187, 3204031479, 3329325298]

/-- The initial hash value of SHA-256. -/
def sha256H0 : List Nat :=
  [1779033703, 3144134277, 1013904242, 2773480762,
   1359893119, 2600822924, 528734635, 1541459225]

/-- Big-endian 8-byte encoding of the message bit length. -/
def beBytes8 (n : Nat) : List Nat :=
  [(n >>> 56) % 256, (n >>> 48) % 256, (n >>> 40) % 256, (n >>> 32) % 256,
   (n >>> 24) % 256, (n >>> 16) % 256, (n >>> 8) % 256, n % 256]

/-- SHA-256 padding: a one bit, zeros to 56 modulo 64 bytes, then the
bit length. -/
def padMessage (msg : List Nat) : List Nat :=
  msg ++ [128] ++ List.replicate ((119 - msg.length % 64) % 64) 0
    ++ beBytes8 (msg.length * 8)

/-- Grouping of bytes into big-endian 32-bit words. -/
def bytesToWords : List Nat → List Nat
  | b0 :: b1 :: b2 :: b3 :: rest =>
    (b0 * 16777216 + b1 * 65536 + b2 * 256 + b3) :: bytesToWords rest
  | _ => []

/-- Fuel-driven split of the padded message into 64-byte chunks. -/
def chunksGo : Nat → List Nat → List (List Nat)
  | 0, _ => []
  | _, [] => []
  | fuel + 1, l => l.take 64 :: chunksGo fuel (l.drop 64)

/-- Split into 64-byte chunks. -/
def chunks64 (l : List Nat) : List (List Nat) := chunksGo l.length l

/-- Message-schedule extension: the accumulator holds the schedule so
far in reverse, so the words two, seven, fifteen and sixteen positions
back sit at offsets 1, 6, 14 and 15. -/
def scheduleGo : Nat → List Nat → List Nat
  | 0, acc => acc.reverse
  | n + 1, acc =>
    scheduleGo n
      (w32 (smallSigma1 (acc.getD 1 0) + acc.getD 6 0
        + smallSigma0 (acc.getD 14 0) + acc.getD 15 0) :: acc)

/-- The 64-word message schedule of one chunk. -/
def schedule (m : List Nat) : List Nat := scheduleGo 48 m.reverse

/-- The eight working registers of the compression loop. -/
structure Sha256State where
  a : Nat
  b : Nat
  c : Nat
  d : Nat
  e : Nat
  f : Nat
  g : Nat
  h : Nat

/-- One round of the compression loop. -/
def sha256Round (st : Sha256State) (kw : Nat × Nat) : Sha256State :=
  let t1 := w32 (st.h + bigSigma1 st.e + chFun st.e st.f st.g + kw.1 + kw.2)
  let t2 := w32 (bigSigma0 st.a + majFun st.a st.b st.c)
  ⟨w32 (t1 + t2), st.a, st.b, st.c, w32 (st.d + t1), st.e, st.f, st.g⟩

/-- Compression of one 64-byte chunk into the running hash value. -/
def compressBlock (H : List Nat) (block : List Nat) : List Nat :=
  let w := schedule (bytesToWords block)
  let init : Sha256State :=
    ⟨H.getD 0 0, H.getD 1 0, H.getD 2 0, H.getD 3 0,
      H.getD 4 0, H.getD 5 0, H.getD 6 0, H.getD 7 0⟩
  let fin := (sha256K.zip w).foldl sha256Round init
  [w32 (H.getD 0 0 + fin.a), w32 (H.getD 1 0 + fin.b),
   w32 (H.getD 2 0 + fin.c), w32 (H.getD 3 0 + fin.d),
   w32 (H.getD 4 0 + fin.e), w32 (H.getD 5 0 + fin.f),
   w32 (H.getD 6 0 + fin.g), w32 (H.getD 7 0 + fin.h)]

/-- SHA-256 digest of a byte sequence, as the eight final hash words. -/
def sha256Words (msg : List Nat) : List Nat :=
  (chunks64 (padMessage msg)).foldl compressBlock sha256H0

/-- A lowercase hexadecimal digit. -/
def hexDigit (n : Nat) : Char :=
  if n < 10 then Char.ofNat (48 + n) else Char.ofNat (87 + n)

/-- Lowercase hexadecimal rendering of one 32-bit word. -/
def wordToHex (w : Nat) : List Char :=
  [hexDigit ((w >>> 28) % 16), hexDigit ((w >>> 24) % 16),
   hexDigit ((w >>> 20) % 16), hexDigit ((w >>> 16) % 16),
   hexDigit ((w >>> 12) % 16), hexDigit ((w >>> 8) % 16),
   hexDigit ((w >>> 4) % 16), hexDigit (w % 16)]

/-- hashlib.sha256(bytes).hexdigest(). -/
def sha256Hex (msg : List Nat) : String :=
  String.mk ((sha256Words msg).flatMap wordToHex)

/-- UTF-8 encoding of one character, as produced by str.encode(). -/
def utf8EncodeByte (c : Char) : List Nat :=
  let n := c.toNat
  if n < 128 then [n]
  else if n < 2048 then [192 + n / 64, 128 + n % 64]
  else if n < 65536 then [224 + n / 4096, 128 + (n / 64) % 64, 128 + n % 64]
  else [240 + n / 262144, 128 + (n / 4096) % 64, 128 + (n / 64) % 64, 128 + n % 64]

/-- str.encode(): UTF-8 encoding of a string. -/
def utf8Encode (s : String) : List Nat := s.data.flatMap utf8EncodeByte

/-- SHA-256 hex digest of the UTF-8 encoding of a string. -/
def sha256HexOfString (s : String) : String := sha256Hex (utf8Encode s)

set_option maxRecDepth 20000 in
theorem sha256_known_vector_abc :
    sha256HexOfString "abc" = "ba7816bf8f01cfea414140de5dae2223b00361a396177a9cb410ff61f20015ad" := by
  decide

set_option maxRecDepth 20000 in
theorem sha256_known_vector_empty :
    sha256HexOfString "" = "e3b0c44298fc1c149afbf4c8996fb92427ae41e4649b934ca495991b7852b855" := by
  decide

namespace FaceAttendance

/-- The content hash computed by save_to_blockchain of
face_attendance.py line 100: the hex SHA-256 digest of the encoded
f-string interpolation of name, a dash and timestamp. -/
def hash_str (name timestamp : String) : String :=
  sha256HexOfString (name ++ "-" ++ timestamp)

end FaceAttendance

namespace AppStreamlit

/-- The content hash computed by save_to_blockchain of app.py line 82
(the same formula is used again on line 176 for dashboard entries). -/
def hash_str (name timestamp : String) : String :=
  sha256HexOfString (name ++ "-" ++ timestamp)

end AppStreamlit

/-!
Claim theorems.
-/

/-- C1: the claim states that a failed cost estimation or submission
leaves the identity unmarked in the session dedup set, eligible for a
later attempt.  The code evaluated here shows the opposite: after the
single failed save_to_blockchain call for alice (the attempt list
records the returned False), alice is nonetheless in logged_today, and
a later detection of alice that would have succeeded makes no further
attempt, so the attempt count stays at one.  This matches the defect
flagged in the design notes of the specification. -/
theorem C1_failed_write_still_marked :
    FaceAttendance.countAttempts "alice"
        (FaceAttendance.capture_and_log true [(some "alice", false), (some "alice", true)]) = 1
      ∧ (FaceAttendance.capture_and_log true
          [(some "alice", false), (some "alice", true)]).attempts = [("alice", false)]
      ∧ "alice" ∈ (FaceAttendance.capture_and_log true
          [(some "alice", false)]).logged_today := by
  decide

/-- C2 counterexample: when fetching index 0 raises, the returned pair
of collect_records holds no entry for index 0 in its second component
(even with the include-invalid flag set); the failure is only printed,
not recorded, so the claimed fetchErrors entry does not exist. -/
theorem C2_counterexample :
    ¬ ∃ v ∈ (collect_records 1 (fun _ => Except.error "connection reset")
        ⟨2025, 1, 1, 0, 0, 0⟩ ⟨2025, 12, 31, 23, 59, 59⟩ true []).2, v.index = 0 := by
  decide

/-- C2 (amended): a failure fetching one index leaves no trace in
either returned list and does not abort the scan: the first component
holds exactly the successfully fetched, well-shaped records whose
resolved time passes the range filter, in strictly ascending index
order, and the second component never mentions a fetch-failed index. -/
theorem C2_scan_isolates_fetch_errors :
    (∀ (total : Nat) (fetch : Nat → Except String (List String))
        (s e : PyDateTime) (inv : Bool) (btm : List (Nat × PyDateTime)) (i : Nat) (msg : String),
      fetch i = Except.error msg →
        (∀ r ∈ (collect_records total fetch s e inv btm).1, r.index ≠ i) ∧
        (∀ v ∈ (collect_records total fetch s e inv btm).2, v.index ≠ i))
    ∧ (∀ (total : Nat) (fetch : Nat → Except String (List String))
        (s e : PyDateTime) (inv : Bool) (btm : List (Nat × PyDateTime)) (r : ValidRecord),
        r ∈ (collect_records total fetch s e inv btm).1 ↔
          r.index < total ∧ (processRecord fetch s e inv btm r.index).1 = some r)
    ∧ (∀ (total : Nat) (fetch : Nat → Except String (List String))
        (s e : PyDateTime) (inv : Bool) (btm : List (Nat × PyDateTime)),
        ((collect_records total fetch s e inv btm).1).Pairwise
          (fun a b => a.index < b.index)) := by
  refine ⟨?_, ?_, ?_⟩
  · intro total fetch s e inv btm i msg hferr
    constructor
    · intro r hr hri
      have hp := (mem_collect_records_fst.1 hr).2
      rw [hri] at hp
      simp [processRecord, hferr] at hp
    · intro v hv hvi
      have hp := (mem_collect_records_snd.1 hv).2
      rw [hvi] at hp
      simp [processRecord, hferr] at hp
  · intro total fetch s e inv btm r
    exact mem_collect_records_fst
  · intro total fetch s e inv btm
    exact collect_records_fst_sorted total fetch s e inv btm

/-- Fixture for the C2 witness: ten records where index 5 fails to
fetch and every other index returns a parseable in-range record. -/
def fetchTenWithOneError : Nat → Except String (List String) :=
  fun i => if i = 5 then Except.error "connection reset"
    else Except.ok ["student", "2025-12-01 20:19:30", "h"]

theorem C2_scan_isolates_fetch_errors_witness :
    (∀ r ∈ (collect_records 10 fetchTenWithOneError
        ⟨2025, 12, 1, 0, 0, 0⟩ ⟨2025, 12, 1, 23, 59, 59⟩ false []).1, r.index ≠ 5)
    ∧ (∀ v ∈ (collect_records 10 fetchTenWithOneError
        ⟨2025, 12, 1, 0, 0, 0⟩ ⟨2025, 12, 1, 23, 59, 59⟩ false []).2, v.index ≠ 5)
    ∧ (collect_records 10 fetchTenWithOneError
        ⟨2025, 12, 1, 0, 0, 0⟩ ⟨2025, 12, 1, 23, 59, 59⟩ false []).1.length = 9 := by
  refine ⟨?_, ?_, by decide⟩
  · exact (C2_scan_isolates_fetch_errors.1 10 fetchTenWithOneError
      ⟨2025, 12, 1, 0, 0, 0⟩ ⟨2025, 12, 1, 23, 59, 59⟩ false [] 5 "connection reset" rfl).1
  · exact (C2_scan_isolates_fetch_errors.1 10 fetchTenWithOneError
      ⟨2025, 12, 1, 0, 0, 0⟩ ⟨2025, 12, 1, 23, 59, 59⟩ false [] 5 "connection reset" rfl).2

/-- C3 counterexample: a date-only end bound given through --end parses
to midnight of that day, not to 23:59:59, so a date-only end bound does
not expand to the full-day window the claim describes. -/
theorem C3_counterexample :
    resolveWindow ⟨none, some "2025-12-01", some "2025-12-02"⟩ ⟨2026, 1, 1, 0, 0, 0⟩ =
        .ok ⟨2025, 12, 1, 0, 0, 0⟩ ⟨2025, 12, 2, 0, 0, 0⟩
      ∧ (⟨2025, 12, 2, 0, 0, 0⟩ : PyDateTime) ≠ ⟨2025, 12, 2, 23, 59, 59⟩ := by
  decide

/-- A day at 23:59:59 is never lexicographically below the same day at
midnight. -/
theorem lt_dayEnd_dayStart_false (y mo d : Nat) :
    (PyDateTime.mk y mo d 23 59 59).lt ⟨y, mo, d, 0, 0, 0⟩ = false := by
  simp [PyDateTime.lt]

/-- C3 (amended): only the --date parameter expands a calendar day to
its full 00:00:00 to 23:59:59 window; a date-only --start or --end
value parses to that day at midnight, for the end bound as well as the
start bound, after which the inversion check compares the two midnight
instants. -/
theorem C3_date_only_expansion :
    (∀ (dstr : String) (now : PyDateTime) (y mo d : Nat),
      strptimeDate dstr = some ⟨y, mo, d, 0, 0, 0⟩ →
        resolveWindow ⟨some dstr, none, none⟩ now =
          .ok ⟨y, mo, d, 0, 0, 0⟩ ⟨y, mo, d, 23, 59, 59⟩)
    ∧ (∀ (sstr estr : String) (now : PyDateTime) (sdt edt : PyDateTime),
        strptimeFull sstr = none → strptimeDate sstr = some sdt →
        strptimeFull estr = none → strptimeDate estr = some edt →
          resolveWindow ⟨none, some sstr, some estr⟩ now =
            (if edt.lt sdt then .error "--end cannot be earlier than --start"
              else .ok sdt edt)) := by
  constructor
  · intro dstr now y mo d hd
    unfold resolveWindow windowBounds
    simp [hd, lt_dayEnd_dayStart_false]
  · intro sstr estr now sdt edt hsf hsd hef hed
    unfold resolveWindow windowBounds parse_time
    cases hlt : edt.lt sdt <;> simp [hsf, hsd, hef, hed, hlt]

theorem C3_date_only_expansion_witness :
    resolveWindow ⟨some "2025-12-01", none, none⟩ ⟨2026, 1, 1, 0, 0, 0⟩ =
      .ok ⟨2025, 12, 1, 0, 0, 0⟩ ⟨2025, 12, 1, 23, 59, 59⟩ :=
  C3_date_only_expansion.1 "2025-12-01" ⟨2026, 1, 1, 0, 0, 0⟩ 2025 12 1 (by decide)

/-- C4: within one capture session at most one save_to_blockchain call
(hence at most one submitted ledger transaction) is made per identity,
in both entry points: once an identity is in the session dedup set a
later detection of it leaves the session state unchanged, and over any
detection stream the per-identity attempt count (face_attendance.py)
and dashboard entry count (app.py) never exceed one. -/
theorem C4_at_most_one_write_per_identity :
    (∀ (send_to_chain : Bool) (detections : List (Option String × Bool)) (name : String),
      FaceAttendance.countAttempts name
        (FaceAttendance.capture_and_log send_to_chain detections) ≤ 1)
    ∧ (∀ (send_to_chain : Bool) (st : FaceAttendance.SessionState) (name : String) (succ : Bool),
        name ∈ st.logged_today →
          FaceAttendance.processDetection send_to_chain st (some name, succ) = st)
    ∧ (∀ (detections : List (Option String × String × String)) (name : String),
        AppStreamlit.countEntries name (AppStreamlit.runWebcamSession detections) ≤ 1) := by
  refine ⟨?_, ?_, ?_⟩
  · intro send_to_chain detections name
    exact (FaceAttendance.capture_and_log_inv send_to_chain detections name).2
  · intro send_to_chain st name succ h
    simp [FaceAttendance.processDetection, h]
  · intro detections name
    exact (AppStreamlit.runWebcamSession_inv detections name).2

theorem C4_at_most_one_write_per_identity_witness :
    FaceAttendance.processDetection true ⟨["alice"], []⟩ (some "alice", true) =
      ⟨["alice"], []⟩ :=
  C4_at_most_one_write_per_identity.2.1 true ⟨["alice"], []⟩ "alice" true (by decide)

/-- C5: the block-time map equals the zero-based enumeration of the
confirmation times of the surviving transactions taken in ascending
block order and block-local transaction order; so key k is mapped to
the confirmation time of the block containing the k-th surviving
transaction of the scan.  The fixture places three matching
transactions in blocks 10, 10 and 12 (with a transaction addressed to
another contract between the two block-10 matches) and receives keys
0, 1 and 2 in that scan order. -/
theorem C5_block_time_map_enumerates_scan_order :
    (∀ (getBlock : Nat → Block) (contractAddr : String)
        (fromtimestamp : Nat → PyDateTime) (from_block to_block : Nat),
      buildBlockTimeMap getBlock contractAddr fromtimestamp from_block to_block =
        (survivingTimes getBlock contractAddr fromtimestamp from_block to_block).enum)
    ∧ buildBlockTimeMap
        (fun b => if b = 10 then ⟨30, [⟨some "0xC", some "logAttendance"⟩,
            ⟨some "0xD", some "logAttendance"⟩, ⟨some "0xC", some "logAttendance"⟩]⟩
          else if b = 12 then ⟨45, [⟨some "0xC", some "logAttendance"⟩]⟩
          else ⟨0, []⟩)
        "0xC" (fun t => ⟨2025, 12, 1, 20, 19, t⟩) 10 12 =
      [(0, ⟨2025, 12, 1, 20, 19, 30⟩), (1, ⟨2025, 12, 1, 20, 19, 30⟩),
        (2, ⟨2025, 12, 1, 20, 19, 45⟩)] := by
  constructor
  · intro getBlock contractAddr fromtimestamp from_block to_block
    unfold buildBlockTimeMap survivingTimes List.enum
    rw [buildBlockTimeMap_go]
    simp
  · decide

/-- C6: timestamp resolution parses the whole text with the fixed
format first; on failure it parses the first substring matching the
fixed pattern; when neither succeeds it yields nothing.  The three
specification examples evaluate accordingly, the noisy one through the
fallback search. -/
theorem C6_resolve_primary_then_fallback :
    (∀ (txt : String) (d : PyDateTime),
      strptimeFull txt = some d → resolveTimestamp txt = some d)
    ∧ (∀ (txt : String) (mtc : List Char), strptimeFull txt = none →
        searchTs txt.data = some mtc →
          resolveTimestamp txt = strptimeFull (String.mk mtc))
    ∧ (∀ txt : String, strptimeFull txt = none → searchTs txt.data = none →
        resolveTimestamp txt = none)
    ∧ resolveTimestamp "2025-12-01 20:19:00" = some ⟨2025, 12, 1, 20, 19, 0⟩
    ∧ resolveTimestamp "noise 2025-12-01 20:19:00 noise" = some ⟨2025, 12, 1, 20, 19, 0⟩
    ∧ resolveTimestamp "garbage" = none := by
  refine ⟨?_, ?_, ?_, by decide, by decide, by decide⟩
  · intro txt d h
    simp [resolveTimestamp, h]
  · intro txt mtc h hs
    simp [resolveTimestamp, h, hs]
  · intro txt h hs
    simp [resolveTimestamp, h, hs]

theorem C6_resolve_primary_then_fallback_witness :
    resolveTimestamp "2025-12-01 20:19:00" = some ⟨2025, 12, 1, 20, 19, 0⟩ :=
  C6_resolve_primary_then_fallback.1 "2025-12-01 20:19:00" ⟨2025, 12, 1, 20, 19, 0⟩ (by decide)

/-- Fixture for C7: three records at 20:18:59, 20:19:30 and 20:20:01 of
the same day. -/
def fetchThreeAroundWindow : Nat → Except String (List String) :=
  fun i => if i = 0 then Except.ok ["ann", "2025-12-01 20:18:59", "h0"]
    else if i = 1 then Except.ok ["bob", "2025-12-01 20:19:30", "h1"]
    else if i = 2 then Except.ok ["cal", "2025-12-01 20:20:01", "h2"]
    else Except.error "index out of range"

/-- C7: for a record with a resolved time, membership in the in-range
result is exactly the inclusive two-sided bound check, and the
specification fixture (records at 20:18:59, 20:19:30 and 20:20:01
filtered by the window 20:19:00 to 20:20:00) returns exactly the
single 20:19:30 record. -/
theorem C7_inclusive_range_filter :
    (∀ (total : Nat) (fetch : Nat → Except String (List String))
        (s e : PyDateTime) (inv : Bool) (btm : List (Nat × PyDateTime))
        (i : Nat) (name ts h : String) (t : PyDateTime),
      i < total → fetch i = Except.ok [name, ts, h] → resolved_dt btm i ts = some t →
        ((⟨i, name, ts, h⟩ : ValidRecord) ∈ (collect_records total fetch s e inv btm).1 ↔
          (s.le t && t.le e) = true))
    ∧ collect_records 3 fetchThreeAroundWindow
        ⟨2025, 12, 1, 20, 19, 0⟩ ⟨2025, 12, 1, 20, 20, 0⟩ false [] =
      ([⟨1, "bob", "2025-12-01 20:19:30", "h1"⟩], []) := by
  constructor
  · intro total fetch s e inv btm i name ts h t hi hf ht
    rw [mem_collect_records_fst]
    constructor
    · rintro ⟨-, hp⟩
      simp only [processRecord, hf, ht] at hp
      by_cases hc : (s.le t && t.le e) = true
      · exact hc
      · rw [if_neg hc] at hp
        simp at hp
    · intro hc
      refine ⟨hi, ?_⟩
      simp only [processRecord, hf, ht]
      rw [if_pos hc]
  · decide

theorem C7_inclusive_range_filter_witness :
    (⟨1, "bob", "2025-12-01 20:19:30", "h1"⟩ : ValidRecord) ∈
      (collect_records 3 fetchThreeAroundWindow
        ⟨2025, 12, 1, 20, 19, 0⟩ ⟨2025, 12, 1, 20, 20, 0⟩ false []).1 :=
  (C7_inclusive_range_filter.1 3 fetchThreeAroundWindow
      ⟨2025, 12, 1, 20, 19, 0⟩ ⟨2025, 12, 1, 20, 20, 0⟩ false []
      1 "bob" "2025-12-01 20:19:30" "h1" ⟨2025, 12, 1, 20, 19, 30⟩
      (by decide) rfl (by decide)).2 (by decide)

/-- C8 counterexample: a record whose timestamp cannot be resolved is
not placed in the invalid collection when the include-invalid flag is
off, contradicting the claim that the placement happens regardless of
the flags: with one unparsable record and the flag off, the second
component of collect_records holds no entry for index 0. -/
theorem C8_counterexample :
    ¬ ∃ v ∈ (collect_records 1 (fun _ => Except.ok ["bob", "garbage", "h"])
        ⟨2025, 1, 1, 0, 0, 0⟩ ⟨2025, 12, 31, 23, 59, 59⟩ false []).2, v.index = 0 := by
  decide

/-- C8 (amended): a record with no resolvable time never reaches the
in-range result, under every flag combination; it is placed in the
invalid collection exactly when the include-invalid flag is set. -/
theorem C8_unresolvable_never_in_range :
    ∀ (total : Nat) (fetch : Nat → Except String (List String))
        (s e : PyDateTime) (inv : Bool) (btm : List (Nat × PyDateTime))
        (i : Nat) (name ts h : String),
      i < total → fetch i = Except.ok [name, ts, h] → resolved_dt btm i ts = none →
        (∀ r ∈ (collect_records total fetch s e inv btm).1, r.index ≠ i) ∧
        (InvalidEntry.badTime i name ts h ∈ (collect_records total fetch s e inv btm).2 ↔
          inv = true) := by
  intro total fetch s e inv btm i name ts h hi hf ht
  constructor
  · intro r hr hri
    have hp := (mem_collect_records_fst.1 hr).2
    rw [hri] at hp
    simp [processRecord, hf, ht] at hp
  · rw [mem_collect_records_snd]
    constructor
    · rintro ⟨-, hp⟩
      simp only [InvalidEntry.index, processRecord, hf, ht] at hp
      by_cases hinv : inv = true
      · exact hinv
      · rw [if_neg hinv] at hp
        simp at hp
    · intro hinv
      refine ⟨hi, ?_⟩
      simp only [InvalidEntry.index, processRecord, hf, ht]
      rw [if_pos hinv]

theorem C8_unresolvable_never_in_range_witness :
    (∀ r ∈ (collect_records 1 (fun _ => Except.ok ["bob", "garbage", "h"])
        ⟨2025, 1, 1, 0, 0, 0⟩ ⟨2025, 12, 31, 23, 59, 59⟩ true []).1, r.index ≠ 0)
    ∧ (InvalidEntry.badTime 0 "bob" "garbage" "h" ∈
        (collect_records 1 (fun _ => Except.ok ["bob", "garbage", "h"])
          ⟨2025, 1, 1, 0, 0, 0⟩ ⟨2025, 12, 31, 23, 59, 59⟩ true []).2 ↔ true = true) :=
  C8_unresolvable_never_in_range 1 (fun _ => Except.ok ["bob", "garbage", "h"])
    ⟨2025, 1, 1, 0, 0, 0⟩ ⟨2025, 12, 31, 23, 59, 59⟩ true [] 0 "bob" "garbage" "h"
    (by decide) rfl (by decide)

/-- C9: both components compute the same content hash, it is the hex
SHA-256 digest of the identity, a dash and the declared timestamp
concatenated, and it is a function of that concatenation alone. -/
theorem C9_content_hash_deterministic :
    (∀ name timestamp : String,
      FaceAttendance.hash_str name timestamp = AppStreamlit.hash_str name timestamp)
    ∧ (∀ name timestamp : String,
        FaceAttendance.hash_str name timestamp = sha256HexOfString (name ++ "-" ++ timestamp))
    ∧ (∀ n1 t1 n2 t2 : String, n1 ++ "-" ++ t1 = n2 ++ "-" ++ t2 →
        FaceAttendance.hash_str n1 t1 = FaceAttendance.hash_str n2 t2) := by
  refine ⟨fun name timestamp => rfl, fun name timestamp => rfl, ?_⟩
  intro n1 t1 n2 t2 h
  unfold FaceAttendance.hash_str
  rw [h]

theorem C9_content_hash_deterministic_witness :
    ("a" ++ "-" ++ "b-c" = "a-b" ++ "-" ++ "c")
    ∧ FaceAttendance.hash_str "a" "b-c" = FaceAttendance.hash_str "a-b" "c" :=
  ⟨by decide, C9_content_hash_deterministic.2.2 "a" "b-c" "a-b" "c" (by decide)⟩

/-- C10: when the resolved end instant falls strictly before the
resolved start instant, main aborts with the parser error before any
ledger interaction: the trace consists of that argument error alone,
with no connect, no totalRecords read and no record fetch. -/
theorem C10_inverted_window_rejected_before_connect :
    ∀ (args : QueryArgs) (now : PyDateTime) (rpc : String) (total : Nat)
        (s e : PyDateTime),
      windowBounds args now = .ok (s, e) → e.lt s = true →
        mainTrace args now rpc total = [.argError "--end cannot be earlier than --start"] ∧
        MainAction.connect rpc ∉ mainTrace args now rpc total ∧
        MainAction.readTotal ∉ mainTrace args now rpc total ∧
        (∀ i : Nat, MainAction.fetchRecord i ∉ mainTrace args now rpc total) := by
  intro args now rpc total s e hwb hlt
  have htrace : mainTrace args now rpc total =
      [.argError "--end cannot be earlier than --start"] := by
    unfold mainTrace resolveWindow
    rw [hwb]
    simp [hlt]
  refine ⟨htrace, ?_, ?_, ?_⟩
  · rw [htrace]; simp
  · rw [htrace]; simp
  · intro i; rw [htrace]; simp

theorem C10_inverted_window_rejected_before_connect_witness :
    mainTrace ⟨none, some "2025-12-02", some "2025-12-01"⟩ ⟨2026, 1, 1, 0, 0, 0⟩
        "http://127.0.0.1:7545" 3 =
      [.argError "--end cannot be earlier than --start"] :=
  (C10_inverted_window_rejected_before_connect
    ⟨none, some "2025-12-02", some "2025-12-01"⟩ ⟨2026, 1, 1, 0, 0, 0⟩
    "http://127.0.0.1:7545" 3 ⟨2025, 12, 2, 0, 0, 0⟩ ⟨2025, 12, 1, 0, 0, 0⟩
    rfl (by decide)).1
